import Mathlib

/-!
Shallow embedding of `bond_tracker.py` (High Yield Bond Spread Tracker).

Values of the tracked series are modelled as rationals (`ℚ`); the Python
floats at the inputs considered here are exact enough that every comparison
in the source agrees with its rational counterpart.  Alert messages are
modelled structurally: each string template appended to the `alertas` list in
`analizar_datos` becomes one constructor of `Condicion`, and the two message
templates become the constructors of `Mensaje`.  Network effects are modelled
by passing the outcome of each HTTP attempt as data.
-/

set_option autoImplicit false

namespace BondTracker

/-- `UMBRAL_CAMBIO_DIARIO = 0.12` (module-level constant, line 21). -/
def UMBRAL_CAMBIO_DIARIO : ℚ := 12/100

/-- `UMBRAL_SPREAD_ALTO = 4.5` (module-level constant, line 22). -/
def UMBRAL_SPREAD_ALTO : ℚ := 45/10

/-- `UMBRAL_SPREAD_CRITICO = 6.0` (module-level constant, line 23). -/
def UMBRAL_SPREAD_CRITICO : ℚ := 6

/-- One observation as built by `obtener_datos_fred`: a dict
`{'fecha': ..., 'valor': float(...)}`, newest first in a batch. -/
structure Observacion where
  fecha : String
  valor : ℚ
deriving DecidableEq, Repr

/-- The persisted snapshot as consumed by `analizar_datos`
(`estado_anterior['fecha']`, `estado_anterior['valor']`). -/
structure Snapshot where
  fecha : String
  valor : ℚ
deriving DecidableEq, Repr

/-- One constructor per string template appended to `alertas` in
`analizar_datos` (lines 165-224). -/
inductive Condicion where
  /-- line 166: "SUBIDA BRUSCA" when `cambio > 0`, else "BAJADA BRUSCA". -/
  | cambioBrusco (subida : Bool)
  /-- line 174: "NIVEL CRÍTICO". -/
  | nivelCritico
  /-- line 180: "NIVEL ALTO". -/
  | nivelAlto
  /-- line 187: "Spread cruzó umbral de 4.5%". -/
  | cruceAltoArriba
  /-- line 190: "Spread cayó por debajo de 4.5%". -/
  | cruceAltoAbajo
  /-- line 193: "Spread cruzó umbral CRÍTICO de 6.0%". -/
  | cruceCriticoArriba
  /-- line 202: "TENDENCIA ALCISTA SOSTENIDA" (5 days rising). -/
  | tendenciaAlcistaSostenida
  /-- line 212: "TENDENCIA BAJISTA SOSTENIDA" (5 days falling). -/
  | tendenciaBajistaSostenida
  /-- line 220: "TENDENCIA ALCISTA" (rising in 4 of the last 5 days). -/
  | tendenciaAlcistaModerada
deriving DecidableEq, Repr

/-- Structural model of the two message templates of `analizar_datos`:
the "Inicio de Monitoreo" text (lines 147-152) and the "ALERTA" text
(lines 230-250, which interpolates current date/value, prior date/value and
the fired condition list). -/
inductive Mensaje where
  | inicioMonitoreo (fecha : String) (valor : ℚ)
  | alerta (fecha : String) (valor : ℚ) (fechaAnterior : String) (valorAnterior : ℚ)
      (alertas : List Condicion)
deriving DecidableEq, Repr

/-- `sum(1 for i in range(4) if ultimos_5[i] > ultimos_5[i+1])` (line 220):
the number of strict day-over-day rises inside the 5-day window,
`v0` newest. -/
def contarSubidas (v0 v1 v2 v3 v4 : ℚ) : ℕ :=
  (if v0 > v1 then 1 else 0) + (if v1 > v2 then 1 else 0) +
    (if v2 > v3 then 1 else 0) + (if v3 > v4 then 1 else 0)

/-- The trend block of `analizar_datos` (lines 197-224), acting on the values
of the observations, newest first.  When fewer than 5 observations are
available the block is skipped.  Returns the conditions it appends together
with the value the block assigns to `es_critico`. -/
def analizarTendencia : List ℚ → List Condicion × Bool
  | v0 :: v1 :: v2 :: v3 :: v4 :: _ =>
    if v0 > v1 ∧ v1 > v2 ∧ v2 > v3 ∧ v3 > v4 then
      ([Condicion.tendenciaAlcistaSostenida], decide (v0 > UMBRAL_SPREAD_ALTO))
    else if v0 < v1 ∧ v1 < v2 ∧ v2 < v3 ∧ v3 < v4 then
      ([Condicion.tendenciaBajistaSostenida], false)
    else if 3 ≤ contarSubidas v0 v1 v2 v3 v4 then
      ([Condicion.tendenciaAlcistaModerada], false)
    else ([], false)
  | _ => ([], false)

/-- Branch 2 of `analizar_datos` (lines 173-184): absolute-level conditions
and their contribution to `es_critico`. -/
def nivelAlertas (spreadActual : ℚ) : List Condicion × Bool :=
  if spreadActual ≥ UMBRAL_SPREAD_CRITICO then ([Condicion.nivelCritico], true)
  else if spreadActual ≥ UMBRAL_SPREAD_ALTO then ([Condicion.nivelAlto], false)
  else ([], false)

/-- Branch 3 of `analizar_datos`, critical crossing (lines 193-195). -/
def cruceCriticoAlertas (spreadAnterior spreadActual : ℚ) : List Condicion × Bool :=
  if spreadAnterior < UMBRAL_SPREAD_CRITICO ∧ spreadActual ≥ UMBRAL_SPREAD_CRITICO then
    ([Condicion.cruceCriticoArriba], true)
  else ([], false)

/-- The full `alertas` list accumulated by `analizar_datos` (lines 162-224)
when a prior snapshot is present, in source order: magnitude change,
absolute level, high-threshold crossings, critical crossing, trend. -/
def listaAlertas (actual : Observacion) (resto : List Observacion) (anterior : Snapshot) :
    List Condicion :=
  (if |actual.valor - anterior.valor| ≥ UMBRAL_CAMBIO_DIARIO then
      [Condicion.cambioBrusco (decide (actual.valor - anterior.valor > 0))]
    else [])
  ++ (nivelAlertas actual.valor).1
  ++ (if anterior.valor < UMBRAL_SPREAD_ALTO ∧ actual.valor ≥ UMBRAL_SPREAD_ALTO then
        [Condicion.cruceAltoArriba]
      else [])
  ++ (if anterior.valor ≥ UMBRAL_SPREAD_ALTO ∧ actual.valor < UMBRAL_SPREAD_ALTO then
        [Condicion.cruceAltoAbajo]
      else [])
  ++ (cruceCriticoAlertas anterior.valor actual.valor).1
  ++ (analizarTendencia ((actual :: resto).map Observacion.valor)).1

/-- The final value of `es_critico` in `analizar_datos`: set by the critical
level (line 179), the critical crossing (line 195) and the sustained uptrend
when the current value strictly exceeds the high threshold (lines 208-209). -/
def criticoCalculado (actual : Observacion) (resto : List Observacion) (anterior : Snapshot) :
    Bool :=
  (nivelAlertas actual.valor).2 || (cruceCriticoAlertas anterior.valor actual.valor).2 ||
    (analizarTendencia ((actual :: resto).map Observacion.valor)).2

/-- `analizar_datos(datos_actuales, estado_anterior)` (lines 130-254).
Returns `(tiene_alertas, mensaje, es_critico)`. -/
def analizar_datos : List Observacion → Option Snapshot → Bool × Option Mensaje × Bool
  | [], _ => (false, none, false)
  | actual :: _, none =>
    (true, some (Mensaje.inicioMonitoreo actual.fecha actual.valor), false)
  | actual :: resto, some anterior =>
    let alertas := listaAlertas actual resto anterior
    if alertas = [] then (false, none, false)
    else
      (true,
        some (Mensaje.alerta actual.fecha actual.valor anterior.fecha anterior.valor alertas),
        criticoCalculado actual resto anterior)

/-- First component of the evaluator result (`tiene_alertas`). -/
def tieneAlerta (r : Bool × Option Mensaje × Bool) : Bool := r.1

/-- Second component of the evaluator result (`mensaje`). -/
def mensajeDe (r : Bool × Option Mensaje × Bool) : Option Mensaje := r.2.1

/-- Third component of the evaluator result (`es_critico`). -/
def esCriticoDe (r : Bool × Option Mensaje × Bool) : Bool := r.2.2

/-- The condition list carried by the result's message, if any. -/
def condicionesDe (r : Bool × Option Mensaje × Bool) : List Condicion :=
  match r.2.1 with
  | some (Mensaje.alerta _ _ _ _ a) => a
  | _ => []

/-- Non-strict day-over-day rise count over the 5-day window, `v0` newest.
This follows the claim wording "the moderate variant counts increases with a
non-strict comparison", to be compared with the source's `contarSubidas`,
which uses strict `>`. -/
def contarSubidasSpec (v0 v1 v2 v3 v4 : ℚ) : ℕ :=
  (if v0 ≥ v1 then 1 else 0) + (if v1 ≥ v2 then 1 else 0) +
    (if v2 ≥ v3 then 1 else 0) + (if v3 ≥ v4 then 1 else 0)

/-! ## Data fetcher (`obtener_datos_fred`, lines 29-81) -/

/-- One raw point of the provider response: `valor = none` models the `'.'`
sentinel for unavailable values (filtered at line 57). -/
structure ObservacionCruda where
  fecha : String
  valor : Option ℚ
deriving DecidableEq, Repr

/-- Outcome of one HTTP attempt: a `requests.exceptions.RequestException`
(connection error, timeout, or `raise_for_status` on a non-2xx response), or
a parsed JSON body whose `observations` entry holds the given points (a
missing or empty `observations` key is the empty list). -/
inductive Intento where
  | falloRed
  | respuesta (observations : List ObservacionCruda)
deriving DecidableEq, Repr

/-- The exceptions `obtener_datos_fred` can raise: the three validation
errors (lines 52, 65, 70), which are plain `Exception`s not caught by the
`RequestException` handler, and the final-retry escalation (line 81). -/
inductive ErrorFetch where
  | sinDatos
  | todosInvalidos
  | fueraDeRango (valor : ℚ)
  | falloRedFinal
deriving DecidableEq, Repr

/-- `max_intentos = 3` (line 34). -/
def max_intentos : ℕ := 3

/-- Body of a successful HTTP attempt (lines 51-73): reject an absent or
empty `observations` list, filter the unavailable-value sentinel, reject an
all-filtered batch, and range-check the newest value against 0.5-30.0. -/
def procesarRespuesta (obs : List ObservacionCruda) : Except ErrorFetch (List Observacion) :=
  if obs = [] then Except.error ErrorFetch.sinDatos
  else
    match obs.filterMap (fun o => o.valor.map (fun v => Observacion.mk o.fecha v)) with
    | [] => Except.error ErrorFetch.todosInvalidos
    | primera :: masObservaciones =>
      if 1/2 ≤ primera.valor ∧ primera.valor ≤ 30 then
        Except.ok (primera :: masObservaciones)
      else Except.error (ErrorFetch.fueraDeRango primera.valor)

/-- Result of running the fetch loop: how many attempts were made, the
`time.sleep` delays performed (line 79), and the value returned or the
exception raised. -/
structure ResultadoFetch where
  intentosUsados : ℕ
  esperas : List ℕ
  resultado : Except ErrorFetch (List Observacion)

/-- The `for intento in range(max_intentos)` loop of `obtener_datos_fred`
(lines 36-81), starting at attempt index `intento`.  A network-transport
failure sleeps 2 seconds and retries while `intento < max_intentos - 1`,
else escalates; any response (including one failing validation) leaves the
loop at once. -/
def bucleFetch (red : ℕ → Intento) (intento : ℕ) : ResultadoFetch :=
  match red intento with
  | Intento.respuesta obs => ⟨intento + 1, [], procesarRespuesta obs⟩
  | Intento.falloRed =>
    if h : intento < max_intentos - 1 then
      let r := bucleFetch red (intento + 1)
      ⟨r.intentosUsados, 2 :: r.esperas, r.resultado⟩
    else ⟨intento + 1, [], Except.error ErrorFetch.falloRedFinal⟩
termination_by max_intentos - intento
decreasing_by
  simp only [max_intentos] at h ⊢
  omega

/-- `obtener_datos_fred` (lines 29-81), parameterised by the outcome of each
HTTP attempt. -/
def obtener_datos_fred (red : ℕ → Intento) : ResultadoFetch :=
  bucleFetch red 0

/-! ## Orchestrator (`main`, lines 332-408) -/

/-- What `cargar_estado` (lines 84-92) hands to the analysis: no state file
or unparseable JSON yields `ausente` (`None`); a parseable JSON object
lacking the expected `valor` key is `corrupto` (truthy, so `analizar_datos`
proceeds and raises `KeyError` at line 155); otherwise a valid snapshot. -/
inductive EstadoPrevio where
  | ausente
  | corrupto
  | valido (s : Snapshot)
deriving DecidableEq, Repr

/-- The environment one run of `main` observes: which credentials are set,
the outcome of each HTTP attempt, the loaded prior state, whether a Telegram
POST would succeed, whether today is Friday (heartbeat day, line 305), and
whether the last recorded run is more than 7 days old (line 280). -/
structure Entorno where
  fredApiKey : Bool
  telegramConfigurado : Bool
  red : ℕ → Intento
  estadoPrevio : EstadoPrevio
  entregaExitosa : Bool
  esViernes : Bool
  ejecucionAtrasada : Bool

/-- `enviar_telegram` (lines 101-127): returns `False` when unconfigured or
when the POST fails, `True` on success; never raises. -/
def enviar_telegram (configurado entregaExitosa : Bool) : Bool :=
  configurado && entregaExitosa

/-- One notification attempt: the `es_critico` flag passed to
`enviar_telegram` and whether delivery succeeded. -/
structure Notificacion where
  esCritico : Bool
  entregada : Bool
deriving DecidableEq, Repr

/-- Observable outcome of one run of `main`: the process exit code, the
snapshot written by `guardar_estado` (or `none` if the run never reached it),
and the notification attempts made. -/
structure Ejecucion where
  codigoSalida : ℕ
  estadoGuardado : Option Snapshot
  notificaciones : List Notificacion

/-- `verificar_salud_sistema` (lines 257-295): sends a critical diagnostic
message when any credential is missing or the last run is stale. -/
def verificar_salud (e : Entorno) : List Notificacion :=
  if !e.fredApiKey || !e.telegramConfigurado || e.ejecucionAtrasada then
    [⟨true, enviar_telegram e.telegramConfigurado e.entregaExitosa⟩]
  else []

/-- The error branch of `main` (lines 398-408): a critical error message is
sent best-effort when Telegram is configured. -/
def notificarError (e : Entorno) : List Notificacion :=
  if e.telegramConfigurado then
    [⟨true, enviar_telegram e.telegramConfigurado e.entregaExitosa⟩]
  else []

/-- `enviar_heartbeat_semanal` (lines 298-329): on Fridays, re-fetch and send
a status message; every failure inside is swallowed. -/
def heartbeat (e : Entorno) : List Notificacion :=
  if e.esViernes then
    match (obtener_datos_fred e.red).resultado with
    | Except.ok (_ :: _) => [⟨false, enviar_telegram e.telegramConfigurado e.entregaExitosa⟩]
    | _ => []
  else []

/-- Tail of `main` after a successful fetch and state load (lines 364-396):
analyse, notify if alerting and configured, persist the newest observation
unconditionally, send the heartbeat, exit 0. -/
def mainTrasAnalisis (e : Entorno) (actual : Observacion) (resto : List Observacion)
    (prev : Option Snapshot) (logSalud : List Notificacion) : Ejecucion :=
  let r := analizar_datos (actual :: resto) prev
  let logAlerta :=
    if tieneAlerta r && (mensajeDe r).isSome && e.telegramConfigurado then
      [⟨esCriticoDe r, enviar_telegram e.telegramConfigurado e.entregaExitosa⟩]
    else []
  ⟨0, some ⟨actual.fecha, actual.valor⟩, logSalud ++ logAlerta ++ heartbeat e⟩

/-- `main` (lines 332-408).  A missing FRED credential exits 1 before any
network call; a fetch failure, an empty fetched batch (an `IndexError` at
line 355) or a corrupt prior state (a `KeyError` inside `analizar_datos`)
lands in the catch-all `except` and exits 1 without persisting; otherwise the
newest fetched observation is persisted and the run exits 0. -/
def main (e : Entorno) : Ejecucion :=
  if !e.fredApiKey then ⟨1, none, []⟩
  else
    let logSalud := verificar_salud e
    match (obtener_datos_fred e.red).resultado with
    | Except.error _ => ⟨1, none, logSalud ++ notificarError e⟩
    | Except.ok [] => ⟨1, none, logSalud ++ notificarError e⟩
    | Except.ok (actual :: resto) =>
      match e.estadoPrevio with
      | EstadoPrevio.corrupto => ⟨1, none, logSalud ++ notificarError e⟩
      | EstadoPrevio.ausente => mainTrasAnalisis e actual resto none logSalud
      | EstadoPrevio.valido s => mainTrasAnalisis e actual resto (some s) logSalud

/-- Copy of an environment with the Telegram delivery outcome replaced. -/
def conEntrega (e : Entorno) (b : Bool) : Entorno :=
  ⟨e.fredApiKey, e.telegramConfigurado, e.red, e.estadoPrevio, b, e.esViernes,
    e.ejecucionAtrasada⟩

/-! ## Concrete inputs used to settle individual claims -/

/-- Five observations, newest first, strictly increasing oldest to newest,
with the newest value above the high threshold. -/
def datosSubida : List Observacion :=
  [⟨"2024-01-05", 5⟩, ⟨"2024-01-04", 49/10⟩, ⟨"2024-01-03", 24/5⟩, ⟨"2024-01-02", 47/10⟩,
    ⟨"2024-01-01", 23/5⟩]

/-- Prior snapshot used together with `datosSubida`. -/
def previoSubida : Snapshot := ⟨"2024-01-04", 49/10⟩

/-- Five observations, newest first, whose window read oldest to newest is
3.0, 3.1, 3.2, 3.2, 3.2: every day-over-day delta is a non-strict rise, but
only two are strict rises. -/
def datosMeseta : List Observacion :=
  [⟨"2024-01-05", 16/5⟩, ⟨"2024-01-04", 16/5⟩, ⟨"2024-01-03", 16/5⟩, ⟨"2024-01-02", 31/10⟩,
    ⟨"2024-01-01", 3⟩]

/-- Prior snapshot used together with `datosMeseta`. -/
def previoMeseta : Snapshot := ⟨"2024-01-04", 16/5⟩

/-- The single current observation of the "current=4.5 vs prior=4.4"
scenario. -/
def obsCuatroCinco : Observacion := ⟨"2024-01-02", 45/10⟩

/-- The prior snapshot of the "current=4.5 vs prior=4.4" scenario. -/
def previoCuatroCuatro : Snapshot := ⟨"2024-01-01", 44/10⟩

/-- A fully configured environment whose single fetch attempt succeeds with
one in-range observation and no prior state file. -/
def entornoDemo : Entorno :=
  ⟨true, true, fun _ => Intento.respuesta [⟨"2024-05-01", some 3⟩], EstadoPrevio.ausente,
    true, false, false⟩

/-! ## Helper lemmas -/

theorem abs_rat_def (q : ℚ) : |q| = if q < 0 then -q else q := by
  split_ifs with h
  · exact abs_of_neg h
  · exact abs_of_nonneg (le_of_not_lt h)

theorem analizar_datos_de_lista (actual : Observacion) (resto : List Observacion)
    (anterior : Snapshot) (h : listaAlertas actual resto anterior ≠ []) :
    analizar_datos (actual :: resto) (some anterior) =
      (true,
        some (Mensaje.alerta actual.fecha actual.valor anterior.fecha anterior.valor
          (listaAlertas actual resto anterior)),
        criticoCalculado actual resto anterior) := by
  simp [analizar_datos, h]

theorem condicionesDe_de_lista (actual : Observacion) (resto : List Observacion)
    (anterior : Snapshot) (h : listaAlertas actual resto anterior ≠ []) :
    condicionesDe (analizar_datos (actual :: resto) (some anterior)) =
      listaAlertas actual resto anterior := by
  rw [analizar_datos_de_lista actual resto anterior h]
  rfl

theorem esCriticoDe_de_lista (actual : Observacion) (resto : List Observacion)
    (anterior : Snapshot) (h : listaAlertas actual resto anterior ≠ []) :
    esCriticoDe (analizar_datos (actual :: resto) (some anterior)) =
      criticoCalculado actual resto anterior := by
  rw [analizar_datos_de_lista actual resto anterior h]
  rfl

theorem nivelAlertas_snd (v : ℚ) :
    (nivelAlertas v).2 = true ↔ UMBRAL_SPREAD_CRITICO ≤ v := by
  unfold nivelAlertas
  split_ifs with h1 h2 <;> simp_all [ge_iff_le]

theorem cruceCriticoAlertas_snd (va v : ℚ) :
    (cruceCriticoAlertas va v).2 = true ↔
      va < UMBRAL_SPREAD_CRITICO ∧ UMBRAL_SPREAD_CRITICO ≤ v := by
  unfold cruceCriticoAlertas
  split_ifs with h <;> simp_all [ge_iff_le]

theorem analizarTendencia_critico (v0 : ℚ) (vs : List ℚ)
    (h : (analizarTendencia (v0 :: vs)).2 = true) :
    (analizarTendencia (v0 :: vs)).1 = [Condicion.tendenciaAlcistaSostenida] ∧
      UMBRAL_SPREAD_ALTO < v0 := by
  rcases vs with _ | ⟨v1, _ | ⟨v2, _ | ⟨v3, _ | ⟨v4, vs⟩⟩⟩⟩ <;>
    simp only [analizarTendencia] at h ⊢ <;> try simp_all
  split_ifs at h ⊢ <;> simp_all [gt_iff_lt]

theorem analizarTendencia_snd_sin_subida (v0 v1 v2 v3 v4 : ℚ) (vs : List ℚ)
    (h : ¬ (v0 > v1 ∧ v1 > v2 ∧ v2 > v3 ∧ v3 > v4)) :
    (analizarTendencia (v0 :: v1 :: v2 :: v3 :: v4 :: vs)).2 = false := by
  simp only [analizarTendencia]
  split_ifs <;> simp_all

theorem bucleFetch_respuesta (red : ℕ → Intento) (intento : ℕ) (obs : List ObservacionCruda)
    (h : red intento = Intento.respuesta obs) :
    bucleFetch red intento = ⟨intento + 1, [], procesarRespuesta obs⟩ := by
  rw [bucleFetch, h]

theorem bucleFetch_fallo (red : ℕ → Intento) (intento : ℕ)
    (h : red intento = Intento.falloRed) :
    bucleFetch red intento =
      if intento < max_intentos - 1 then
        ⟨(bucleFetch red (intento + 1)).intentosUsados,
          2 :: (bucleFetch red (intento + 1)).esperas,
          (bucleFetch red (intento + 1)).resultado⟩
      else ⟨intento + 1, [], Except.error ErrorFetch.falloRedFinal⟩ := by
  rw [bucleFetch, h]
  split_ifs <;> rfl

/-! ## Claims -/

/-- Claim C10: the evaluator's result triple is well-formed: a message is
present exactly when `tiene_alertas` is true, `es_critico` implies
`tiene_alertas`, and every no-alert outcome is exactly
`(false, none, false)`. -/
theorem C10_resultado_bien_formado (datos : List Observacion) (prior : Option Snapshot) :
    ((mensajeDe (analizar_datos datos prior)).isSome ↔
      tieneAlerta (analizar_datos datos prior) = true) ∧
    (esCriticoDe (analizar_datos datos prior) = true →
      tieneAlerta (analizar_datos datos prior) = true) ∧
    (tieneAlerta (analizar_datos datos prior) = false →
      analizar_datos datos prior = (false, none, false)) := by
  rcases datos with _ | ⟨actual, resto⟩
  · simp [analizar_datos, mensajeDe, tieneAlerta, esCriticoDe]
  · rcases prior with _ | ant
    · simp [analizar_datos, mensajeDe, tieneAlerta, esCriticoDe]
    · by_cases h : listaAlertas actual resto ant = [] <;>
        simp [analizar_datos, h, mensajeDe, tieneAlerta, esCriticoDe]

/-- Claim C7: with no prior snapshot, the evaluator always alerts with the
"monitoring started" message built from the current observation alone, and
`es_critico` is false, regardless of the current value. -/
theorem C7_inicio_monitoreo (actual : Observacion) (resto : List Observacion) :
    analizar_datos (actual :: resto) none =
      (true, some (Mensaje.inicioMonitoreo actual.fecha actual.valor), false) := rfl

/-- Claim C3, counterexample: with the program's default thresholds
(0.12 / 4.5 / 6.0), current value 4.5 against prior 4.4 DOES produce an
alert, because 4.5 is exactly at the high threshold; the claim predicts no
alert. -/
theorem C3_contraejemplo :
    tieneAlerta (analizar_datos [obsCuatroCinco] (some previoCuatroCuatro)) = true := by
  norm_num [obsCuatroCinco, previoCuatroCuatro, tieneAlerta, analizar_datos, listaAlertas,
    nivelAlertas, cruceCriticoAlertas, analizarTendencia, contarSubidas, criticoCalculado,
    abs_rat_def, UMBRAL_CAMBIO_DIARIO, UMBRAL_SPREAD_ALTO, UMBRAL_SPREAD_CRITICO]
  simp

/-- Claim C3 as amended: with the program's default thresholds (daily change
0.12, high 4.5, critical 6.0), a current observation of 4.5 against a prior
of 4.4 produces an alert whose only fired conditions are the level-high
condition and the crossing-up condition (the magnitude change 0.1 stays
below the 0.12 daily-change threshold), and it is not critical. -/
theorem C3_alerta_en_umbral :
    analizar_datos [obsCuatroCinco] (some previoCuatroCuatro) =
      (true,
        some (Mensaje.alerta "2024-01-02" (45/10) "2024-01-01" (44/10)
          [Condicion.nivelAlto, Condicion.cruceAltoArriba]),
        false) := by
  norm_num [obsCuatroCinco, previoCuatroCuatro, analizar_datos, listaAlertas, nivelAlertas,
    cruceCriticoAlertas, analizarTendencia, contarSubidas, criticoCalculado, abs_rat_def,
    UMBRAL_CAMBIO_DIARIO, UMBRAL_SPREAD_ALTO, UMBRAL_SPREAD_CRITICO]
  simp

/-- Claim C4: with a prior snapshot present, if the magnitude change is below
the daily-change threshold, the current value is below the high threshold,
the prior value is on the same (lower) side of both thresholds, and no trend
pattern fires over the window, the evaluator returns the no-alert triple. -/
theorem C4_sin_alerta (actual : Observacion) (resto : List Observacion) (ant : Snapshot)
    (hCambio : |actual.valor - ant.valor| < UMBRAL_CAMBIO_DIARIO)
    (hNivel : actual.valor < UMBRAL_SPREAD_ALTO)
    (hAntAlto : ant.valor < UMBRAL_SPREAD_ALTO)
    (hAntCritico : ant.valor < UMBRAL_SPREAD_CRITICO)
    (hTendencia : analizarTendencia ((actual :: resto).map Observacion.valor) = ([], false)) :
    analizar_datos (actual :: resto) (some ant) = (false, none, false) := by
  have hNivelCritico : actual.valor < UMBRAL_SPREAD_CRITICO := by
    have : UMBRAL_SPREAD_ALTO < UMBRAL_SPREAD_CRITICO := by
      norm_num [UMBRAL_SPREAD_ALTO, UMBRAL_SPREAD_CRITICO]
    linarith
  have hTendencia2 : analizarTendencia (actual.valor :: resto.map Observacion.valor) =
      ([], false) := by simpa using hTendencia
  have hlista : listaAlertas actual resto ant = [] := by
    simp [listaAlertas, nivelAlertas, cruceCriticoAlertas, hTendencia2, ge_iff_le,
      not_le.mpr hCambio, not_le.mpr hNivel, not_le.mpr hNivelCritico, not_le.mpr hAntAlto]
  simp [analizar_datos, hlista]

/-- Claim C5: thresholds are inclusive: when the current value equals the
high threshold exactly and the prior value is strictly below it, both the
level-high condition and the crossing-up condition fire in the same run. -/
theorem C5_umbral_inclusivo (actual : Observacion) (resto : List Observacion) (ant : Snapshot)
    (hEq : actual.valor = UMBRAL_SPREAD_ALTO)
    (hAnt : ant.valor < UMBRAL_SPREAD_ALTO) :
    Condicion.nivelAlto ∈ condicionesDe (analizar_datos (actual :: resto) (some ant)) ∧
    Condicion.cruceAltoArriba ∈ condicionesDe (analizar_datos (actual :: resto) (some ant)) := by
  have hAltoLtCritico : actual.valor < UMBRAL_SPREAD_CRITICO := by
    rw [hEq]; norm_num [UMBRAL_SPREAD_ALTO, UMBRAL_SPREAD_CRITICO]
  have hNivel : Condicion.nivelAlto ∈ listaAlertas actual resto ant := by
    simp [listaAlertas, nivelAlertas, ge_iff_le, hEq.ge, not_le.mpr hAltoLtCritico]
  have hCruce : Condicion.cruceAltoArriba ∈ listaAlertas actual resto ant := by
    simp [listaAlertas, hAnt, ge_iff_le, hEq.ge]
  have hne : listaAlertas actual resto ant ≠ [] := List.ne_nil_of_mem hNivel
  rw [condicionesDe_de_lista actual resto ant hne]
  exact ⟨hNivel, hCruce⟩

/-- Witness for C4 at current 3.5 against prior 3.45 with a one-element
window. -/
theorem C4_sin_alerta_witness :
    analizar_datos [⟨"2024-06-02", 7/2⟩] (some ⟨"2024-06-01", 69/20⟩) =
      (false, none, false) :=
  C4_sin_alerta ⟨"2024-06-02", 7/2⟩ [] ⟨"2024-06-01", 69/20⟩
    (by norm_num [abs_rat_def, UMBRAL_CAMBIO_DIARIO])
    (by norm_num [UMBRAL_SPREAD_ALTO])
    (by norm_num [UMBRAL_SPREAD_ALTO])
    (by norm_num [UMBRAL_SPREAD_CRITICO])
    (by rfl)

/-- Witness for C5 at current exactly 4.5 against prior 4.3. -/
theorem C5_umbral_inclusivo_witness :
    Condicion.nivelAlto ∈
      condicionesDe (analizar_datos [⟨"2024-07-02", 45/10⟩] (some ⟨"2024-07-01", 43/10⟩)) ∧
    Condicion.cruceAltoArriba ∈
      condicionesDe (analizar_datos [⟨"2024-07-02", 45/10⟩] (some ⟨"2024-07-01", 43/10⟩)) :=
  C5_umbral_inclusivo ⟨"2024-07-02", 45/10⟩ [] ⟨"2024-07-01", 43/10⟩
    (by norm_num [UMBRAL_SPREAD_ALTO]) (by norm_num [UMBRAL_SPREAD_ALTO])

/-- Witness for C10: the empty-input no-alert outcome obtained through the
well-formedness theorem. -/
theorem C10_resultado_bien_formado_witness :
    analizar_datos [] none = (false, none, false) :=
  (C10_resultado_bien_formado [] none).2.2 rfl

/-- Witness for C7 at a current value far above the critical threshold: the
run still reports only the monitoring-started message and is not critical. -/
theorem C7_inicio_monitoreo_witness :
    analizar_datos [⟨"2024-08-01", 9⟩] none =
      (true, some (Mensaje.inicioMonitoreo "2024-08-01" 9), false) :=
  C7_inicio_monitoreo ⟨"2024-08-01", 9⟩ []

/-- Claim C1, counterexample: on five observations strictly increasing
oldest to newest (4.6, 4.7, 4.8, 4.9, 5.0) with prior 4.9, the evaluator
does NOT fire the downtrend-labeled condition (it fires the uptrend-labeled
one), and `es_critico` is true although neither the critical-level nor the
critical-crossing condition fired — so the trend condition itself set it. -/
theorem C1_contraejemplo :
    Condicion.tendenciaBajistaSostenida ∉
      condicionesDe (analizar_datos datosSubida (some previoSubida)) ∧
    Condicion.tendenciaAlcistaSostenida ∈
      condicionesDe (analizar_datos datosSubida (some previoSubida)) ∧
    esCriticoDe (analizar_datos datosSubida (some previoSubida)) = true ∧
    Condicion.nivelCritico ∉
      condicionesDe (analizar_datos datosSubida (some previoSubida)) ∧
    Condicion.cruceCriticoArriba ∉
      condicionesDe (analizar_datos datosSubida (some previoSubida)) := by
  norm_num [datosSubida, previoSubida, condicionesDe, esCriticoDe, analizar_datos,
    listaAlertas, nivelAlertas, cruceCriticoAlertas, analizarTendencia, contarSubidas,
    criticoCalculado, abs_rat_def, UMBRAL_CAMBIO_DIARIO, UMBRAL_SPREAD_ALTO,
    UMBRAL_SPREAD_CRITICO]
  simp

/-- Claim C1 as amended: for every input of at least 5 observations
(newest-first) strictly increasing oldest to newest, with a prior snapshot
present, the evaluator fires the UPTREND-labeled sustained-trend condition,
and `es_critico` is true exactly when the current value strictly exceeds the
high threshold. -/
theorem C1_tendencia_subida (o0 o1 o2 o3 o4 : Observacion) (resto : List Observacion)
    (ant : Snapshot)
    (h01 : o0.valor > o1.valor) (h12 : o1.valor > o2.valor)
    (h23 : o2.valor > o3.valor) (h34 : o3.valor > o4.valor) :
    Condicion.tendenciaAlcistaSostenida ∈
      condicionesDe (analizar_datos (o0 :: o1 :: o2 :: o3 :: o4 :: resto) (some ant)) ∧
    (esCriticoDe (analizar_datos (o0 :: o1 :: o2 :: o3 :: o4 :: resto) (some ant)) = true ↔
      UMBRAL_SPREAD_ALTO < o0.valor) := by
  have hT : analizarTendencia (o0.valor :: o1.valor :: o2.valor :: o3.valor :: o4.valor ::
        resto.map Observacion.valor) =
      ([Condicion.tendenciaAlcistaSostenida], decide (o0.valor > UMBRAL_SPREAD_ALTO)) := by
    simp only [analizarTendencia]
    rw [if_pos ⟨h01, h12, h23, h34⟩]
  have hMem : Condicion.tendenciaAlcistaSostenida ∈
      listaAlertas o0 (o1 :: o2 :: o3 :: o4 :: resto) ant := by
    simp [listaAlertas, hT]
  have hne := List.ne_nil_of_mem hMem
  refine ⟨?_, ?_⟩
  · rw [condicionesDe_de_lista _ _ _ hne]
    exact hMem
  · rw [esCriticoDe_de_lista _ _ _ hne]
    simp only [criticoCalculado, List.map_cons, hT, Bool.or_eq_true, nivelAlertas_snd,
      cruceCriticoAlertas_snd, decide_eq_true_eq, gt_iff_lt]
    have hac : UMBRAL_SPREAD_ALTO < UMBRAL_SPREAD_CRITICO := by
      norm_num [UMBRAL_SPREAD_ALTO, UMBRAL_SPREAD_CRITICO]
    constructor
    · rintro ((hc | ⟨-, hc⟩) | hc)
      · linarith
      · linarith
      · exact hc
    · intro hc
      exact Or.inr hc

/-- Witness for the amended C1 on the spec's example values 3.0, 3.2, 3.4,
3.6, 3.8 (newest first in the input), where the current value 3.8 does not
exceed the high threshold, so the run is not critical. -/
theorem C1_tendencia_subida_witness :
    Condicion.tendenciaAlcistaSostenida ∈
      condicionesDe (analizar_datos [⟨"2024-02-05", 38/10⟩, ⟨"2024-02-04", 36/10⟩,
        ⟨"2024-02-03", 34/10⟩, ⟨"2024-02-02", 32/10⟩, ⟨"2024-02-01", 3⟩]
        (some ⟨"2024-02-04", 36/10⟩)) ∧
    (esCriticoDe (analizar_datos [⟨"2024-02-05", 38/10⟩, ⟨"2024-02-04", 36/10⟩,
        ⟨"2024-02-03", 34/10⟩, ⟨"2024-02-02", 32/10⟩, ⟨"2024-02-01", 3⟩]
        (some ⟨"2024-02-04", 36/10⟩)) = true ↔
      UMBRAL_SPREAD_ALTO < (38/10 : ℚ)) :=
  C1_tendencia_subida ⟨"2024-02-05", 38/10⟩ ⟨"2024-02-04", 36/10⟩ ⟨"2024-02-03", 34/10⟩
    ⟨"2024-02-02", 32/10⟩ ⟨"2024-02-01", 3⟩ [] ⟨"2024-02-04", 36/10⟩
    (by norm_num) (by norm_num) (by norm_num) (by norm_num)

/-- Claim C2, counterexample: on the window 3.0, 3.1, 3.2, 3.2, 3.2 (read
oldest to newest) all four day-over-day deltas are non-strict rises, so the
claim (counting with a non-strict comparison) predicts the moderate-uptrend
condition; the code counts only strict rises (two here) and returns no alert
at all. -/
theorem C2_contraejemplo :
    3 ≤ contarSubidasSpec (16/5) (16/5) (16/5) (31/10) 3 ∧
    ¬ ((16/5 : ℚ) > 16/5 ∧ (16/5 : ℚ) > 16/5 ∧ (16/5 : ℚ) > 31/10 ∧ (31/10 : ℚ) > 3) ∧
    ¬ ((16/5 : ℚ) < 16/5 ∧ (16/5 : ℚ) < 16/5 ∧ (16/5 : ℚ) < 31/10 ∧ (31/10 : ℚ) < 3) ∧
    analizar_datos datosMeseta (some previoMeseta) = (false, none, false) := by
  refine ⟨by norm_num [contarSubidasSpec], by norm_num, by norm_num, ?_⟩
  norm_num [datosMeseta, previoMeseta, analizar_datos, listaAlertas, nivelAlertas,
    cruceCriticoAlertas, analizarTendencia, contarSubidas, criticoCalculado, abs_rat_def,
    UMBRAL_CAMBIO_DIARIO, UMBRAL_SPREAD_ALTO, UMBRAL_SPREAD_CRITICO]

/-- Claim C2 as amended: with at least 5 observations, a prior snapshot, and
neither strict 5-day monotonic run, the evaluator fires the moderate-uptrend
condition exactly when at least 3 of the 4 day-over-day deltas in the window
are STRICT rises; the moderate condition never contributes to `es_critico`,
which under these hypotheses holds exactly when the current value is at or
above the critical threshold. -/
theorem C2_tendencia_moderada (o0 o1 o2 o3 o4 : Observacion) (resto : List Observacion)
    (ant : Snapshot)
    (hNoUp : ¬ (o0.valor > o1.valor ∧ o1.valor > o2.valor ∧ o2.valor > o3.valor ∧
      o3.valor > o4.valor))
    (hNoDown : ¬ (o0.valor < o1.valor ∧ o1.valor < o2.valor ∧ o2.valor < o3.valor ∧
      o3.valor < o4.valor)) :
    (Condicion.tendenciaAlcistaModerada ∈
        condicionesDe (analizar_datos (o0 :: o1 :: o2 :: o3 :: o4 :: resto) (some ant)) ↔
      3 ≤ contarSubidas o0.valor o1.valor o2.valor o3.valor o4.valor) ∧
    (esCriticoDe (analizar_datos (o0 :: o1 :: o2 :: o3 :: o4 :: resto) (some ant)) = true ↔
      UMBRAL_SPREAD_CRITICO ≤ o0.valor) := by
  have hT : analizarTendencia (o0.valor :: o1.valor :: o2.valor :: o3.valor :: o4.valor ::
        resto.map Observacion.valor) =
      if 3 ≤ contarSubidas o0.valor o1.valor o2.valor o3.valor o4.valor then
        ([Condicion.tendenciaAlcistaModerada], false)
      else ([], false) := by
    simp only [analizarTendencia]
    rw [if_neg hNoUp, if_neg hNoDown]
  have hIff : Condicion.tendenciaAlcistaModerada ∈
      listaAlertas o0 (o1 :: o2 :: o3 :: o4 :: resto) ant ↔
      3 ≤ contarSubidas o0.valor o1.valor o2.valor o3.valor o4.valor := by
    by_cases hc : 3 ≤ contarSubidas o0.valor o1.valor o2.valor o3.valor o4.valor
    · simp [listaAlertas, hT, hc]
    · rw [iff_false_intro hc, iff_false]
      intro hmem
      have hT1 : (analizarTendencia (o0.valor :: o1.valor :: o2.valor :: o3.valor ::
          o4.valor :: resto.map Observacion.valor)).1 = [] := by
        rw [hT, if_neg hc]
      simp only [listaAlertas, nivelAlertas, cruceCriticoAlertas, List.map_cons, hT1,
        List.append_nil] at hmem
      split_ifs at hmem <;> simp_all
  have hT2 : (analizarTendencia (o0.valor :: o1.valor :: o2.valor :: o3.valor :: o4.valor ::
      resto.map Observacion.valor)).2 = false := by
    rw [hT]
    split_ifs <;> rfl
  have hCritIff : criticoCalculado o0 (o1 :: o2 :: o3 :: o4 :: resto) ant = true ↔
      UMBRAL_SPREAD_CRITICO ≤ o0.valor := by
    simp only [criticoCalculado, List.map_cons, hT2, Bool.or_false, Bool.or_eq_true,
      nivelAlertas_snd, cruceCriticoAlertas_snd]
    constructor
    · rintro (hc | ⟨-, hc⟩) <;> exact hc
    · intro hc
      exact Or.inl hc
  by_cases hl : listaAlertas o0 (o1 :: o2 :: o3 :: o4 :: resto) ant = []
  · have hNoMem : ¬ 3 ≤ contarSubidas o0.valor o1.valor o2.valor o3.valor o4.valor := by
      intro hc
      exact absurd hl (List.ne_nil_of_mem (hIff.mpr hc))
    have hNoCrit : ¬ UMBRAL_SPREAD_CRITICO ≤ o0.valor := by
      intro hc
      have hmem : Condicion.nivelCritico ∈
          listaAlertas o0 (o1 :: o2 :: o3 :: o4 :: resto) ant := by
        simp [listaAlertas, nivelAlertas, ge_iff_le, hc]
      exact absurd hl (List.ne_nil_of_mem hmem)
    simp [analizar_datos, hl, condicionesDe, esCriticoDe, hNoMem, hNoCrit]
  · rw [condicionesDe_de_lista _ _ _ hl, esCriticoDe_de_lista _ _ _ hl]
    exact ⟨hIff, hCritIff⟩

/-- Witness for the amended C2 on the window 3.2, 3.3, 3.45, 3.4, 3.5 (read
oldest to newest): neither strict run holds, three of the four deltas are
strict rises, the moderate condition fires, and the run is not critical. -/
theorem C2_tendencia_moderada_witness :
    (Condicion.tendenciaAlcistaModerada ∈
        condicionesDe (analizar_datos [⟨"2024-09-05", 7/2⟩, ⟨"2024-09-04", 17/5⟩,
          ⟨"2024-09-03", 69/20⟩, ⟨"2024-09-02", 33/10⟩, ⟨"2024-09-01", 16/5⟩]
          (some ⟨"2024-09-04", 17/5⟩)) ↔
      3 ≤ contarSubidas (7/2) (17/5) (69/20) (33/10) (16/5)) ∧
    (esCriticoDe (analizar_datos [⟨"2024-09-05", 7/2⟩, ⟨"2024-09-04", 17/5⟩,
          ⟨"2024-09-03", 69/20⟩, ⟨"2024-09-02", 33/10⟩, ⟨"2024-09-01", 16/5⟩]
          (some ⟨"2024-09-04", 17/5⟩)) = true ↔
      UMBRAL_SPREAD_CRITICO ≤ (7/2 : ℚ)) :=
  C2_tendencia_moderada ⟨"2024-09-05", 7/2⟩ ⟨"2024-09-04", 17/5⟩ ⟨"2024-09-03", 69/20⟩
    ⟨"2024-09-02", 33/10⟩ ⟨"2024-09-01", 16/5⟩ [] ⟨"2024-09-04", 17/5⟩
    (by norm_num) (by norm_num)

/-- Claim C6: with a prior snapshot present, a current value at or above the
critical threshold fires the critical-level condition and makes the run
critical, regardless of the change from the prior value; a current value at
or above the high threshold but below the critical one fires the high-level
condition, and if such a run is nevertheless critical the flag came from the
sustained uptrend with the current value strictly above the high threshold,
not from the high-level condition. -/
theorem C6_niveles (actual : Observacion) (resto : List Observacion) (ant : Snapshot) :
    (UMBRAL_SPREAD_CRITICO ≤ actual.valor →
      Condicion.nivelCritico ∈ condicionesDe (analizar_datos (actual :: resto) (some ant)) ∧
      esCriticoDe (analizar_datos (actual :: resto) (some ant)) = true) ∧
    (UMBRAL_SPREAD_ALTO ≤ actual.valor → actual.valor < UMBRAL_SPREAD_CRITICO →
      Condicion.nivelAlto ∈ condicionesDe (analizar_datos (actual :: resto) (some ant)) ∧
      (esCriticoDe (analizar_datos (actual :: resto) (some ant)) = true →
        Condicion.tendenciaAlcistaSostenida ∈
          condicionesDe (analizar_datos (actual :: resto) (some ant)) ∧
        UMBRAL_SPREAD_ALTO < actual.valor)) := by
  constructor
  · intro h
    have hMem : Condicion.nivelCritico ∈ listaAlertas actual resto ant := by
      simp [listaAlertas, nivelAlertas, ge_iff_le, h]
    have hne := List.ne_nil_of_mem hMem
    refine ⟨?_, ?_⟩
    · rw [condicionesDe_de_lista _ _ _ hne]
      exact hMem
    · rw [esCriticoDe_de_lista _ _ _ hne]
      simp only [criticoCalculado, Bool.or_eq_true, nivelAlertas_snd]
      exact Or.inl (Or.inl h)
  · intro hAlto hLtCrit
    have hMem : Condicion.nivelAlto ∈ listaAlertas actual resto ant := by
      simp [listaAlertas, nivelAlertas, ge_iff_le, hAlto, not_le.mpr hLtCrit]
    have hne := List.ne_nil_of_mem hMem
    refine ⟨?_, ?_⟩
    · rw [condicionesDe_de_lista _ _ _ hne]
      exact hMem
    · intro hCrit
      rw [esCriticoDe_de_lista _ _ _ hne] at hCrit
      simp only [criticoCalculado, Bool.or_eq_true, nivelAlertas_snd,
        cruceCriticoAlertas_snd] at hCrit
      rcases hCrit with (hc | ⟨-, hc⟩) | hc
      · exact absurd hc (not_le.mpr hLtCrit)
      · exact absurd hc (not_le.mpr hLtCrit)
      · rw [List.map_cons] at hc
        obtain ⟨hT1, hgt⟩ := analizarTendencia_critico _ _ hc
        have hMemT : Condicion.tendenciaAlcistaSostenida ∈ listaAlertas actual resto ant := by
          rw [listaAlertas, List.map_cons, hT1]
          simp
        exact ⟨by rw [condicionesDe_de_lista _ _ _ hne]; exact hMemT, hgt⟩

/-- Witness for C6 at current exactly 6.0 (the critical threshold) against
prior 5.9: the critical-level condition fires and the run is critical even
though the day-over-day change is only 0.1. -/
theorem C6_niveles_witness :
    Condicion.nivelCritico ∈
      condicionesDe (analizar_datos [⟨"2024-03-02", 6⟩] (some ⟨"2024-03-01", 59/10⟩)) ∧
    esCriticoDe (analizar_datos [⟨"2024-03-02", 6⟩] (some ⟨"2024-03-01", 59/10⟩)) = true :=
  (C6_niveles ⟨"2024-03-02", 6⟩ [] ⟨"2024-03-01", 59/10⟩).1
    (by norm_num [UMBRAL_SPREAD_CRITICO])

/-- Claim C8: the fetcher makes at most 3 attempts, every inter-attempt
delay is a fixed 2 seconds (one sleep per extra attempt), any first-attempt
response — including one failing validation, such as the out-of-range value
35.0 — is settled immediately with no retry, and three consecutive
network-transport failures escalate the final failure after 3 attempts. -/
theorem C8_reintentos (red : ℕ → Intento) :
    (obtener_datos_fred red).intentosUsados ≤ max_intentos ∧
    (obtener_datos_fred red).esperas =
      List.replicate ((obtener_datos_fred red).intentosUsados - 1) 2 ∧
    (∀ obs, red 0 = Intento.respuesta obs →
      (obtener_datos_fred red).intentosUsados = 1 ∧
      (obtener_datos_fred red).resultado = procesarRespuesta obs) ∧
    ((∀ i, i < max_intentos → red i = Intento.falloRed) →
      (obtener_datos_fred red).intentosUsados = max_intentos ∧
      (obtener_datos_fred red).resultado = Except.error ErrorFetch.falloRedFinal) := by
  rcases h0 : red 0 with _ | obs0
  · rcases h1 : red 1 with _ | obs1
    · rcases h2 : red 2 with _ | obs2
      · have e2 := bucleFetch_fallo red 2 h2
        have e1 := bucleFetch_fallo red 1 h1
        have e0 := bucleFetch_fallo red 0 h0
        norm_num [max_intentos] at e2 e1 e0
        rw [e2] at e1
        norm_num at e1
        rw [e1] at e0
        norm_num at e0
        refine ⟨?_, ?_, ?_, ?_⟩
        · simp [obtener_datos_fred, e0, max_intentos]
        · simp [obtener_datos_fred, e0, List.replicate]
        · intro obs h
          simp at h
        · intro _
          simp [obtener_datos_fred, e0, max_intentos]
      · have e2 := bucleFetch_respuesta red 2 obs2 h2
        have e1 := bucleFetch_fallo red 1 h1
        have e0 := bucleFetch_fallo red 0 h0
        norm_num [max_intentos] at e1 e0
        rw [e2] at e1
        norm_num at e1
        rw [e1] at e0
        norm_num at e0
        refine ⟨?_, ?_, ?_, ?_⟩
        · simp [obtener_datos_fred, e0, max_intentos]
        · simp [obtener_datos_fred, e0, List.replicate]
        · intro obs h
          simp at h
        · intro hall
          have := hall 2 (by norm_num [max_intentos])
          rw [h2] at this
          simp at this
    · have e1 := bucleFetch_respuesta red 1 obs1 h1
      have e0 := bucleFetch_fallo red 0 h0
      norm_num [max_intentos] at e0
      rw [e1] at e0
      norm_num at e0
      refine ⟨?_, ?_, ?_, ?_⟩
      · simp [obtener_datos_fred, e0, max_intentos]
      · simp [obtener_datos_fred, e0, List.replicate]
      · intro obs h
        simp at h
      · intro hall
        have := hall 1 (by norm_num [max_intentos])
        rw [h1] at this
        simp at this
  · have e0 := bucleFetch_respuesta red 0 obs0 h0
    refine ⟨?_, ?_, ?_, ?_⟩
    · simp [obtener_datos_fred, e0, max_intentos]
    · simp [obtener_datos_fred, e0, List.replicate]
    · intro obs h
      cases h
      exact ⟨by simp [obtener_datos_fred, e0], by simp [obtener_datos_fred, e0]⟩
    · intro hall
      have := hall 0 (by norm_num [max_intentos])
      rw [h0] at this
      simp at this

/-- Witness for C8: a first-attempt response whose only value is 35.0 fails
validation with no retry, while an always-failing network makes exactly 3
attempts and escalates the transport failure. -/
theorem C8_reintentos_witness :
    (obtener_datos_fred (fun _ => Intento.respuesta [⟨"2024-04-01", some 35⟩])).intentosUsados
        = 1 ∧
    (obtener_datos_fred (fun _ => Intento.respuesta [⟨"2024-04-01", some 35⟩])).resultado =
      Except.error (ErrorFetch.fueraDeRango 35) ∧
    (obtener_datos_fred (fun _ => Intento.falloRed)).intentosUsados = max_intentos ∧
    (obtener_datos_fred (fun _ => Intento.falloRed)).resultado =
      Except.error ErrorFetch.falloRedFinal := by
  have h1 := (C8_reintentos (fun _ => Intento.respuesta [⟨"2024-04-01", some 35⟩])).2.2.1
    [⟨"2024-04-01", some 35⟩] rfl
  have h2 := (C8_reintentos (fun _ => Intento.falloRed)).2.2.2 (fun i _ => rfl)
  refine ⟨h1.1, ?_, h2.1, h2.2⟩
  rw [h1.2]
  norm_num [procesarRespuesta, List.filterMap, Option.map]

/-- Claim C9: the exit code and the persisted snapshot never depend on the
Telegram delivery outcome; a fetch failure (or an evaluation failure caused
by a corrupt prior state) exits 1 without persisting anything; a successful
fetch with readable prior state persists the freshly fetched newest
observation and exits 0. -/
theorem C9_notificacion_y_persistencia (e : Entorno) :
    ((main (conEntrega e false)).codigoSalida = (main (conEntrega e true)).codigoSalida ∧
      (main (conEntrega e false)).estadoGuardado = (main (conEntrega e true)).estadoGuardado) ∧
    (∀ err, (obtener_datos_fred e.red).resultado = Except.error err →
      (main e).codigoSalida = 1 ∧ (main e).estadoGuardado = none) ∧
    (e.estadoPrevio = EstadoPrevio.corrupto →
      (main e).codigoSalida = 1 ∧ (main e).estadoGuardado = none) ∧
    (∀ actual resto, e.fredApiKey = true →
      (obtener_datos_fred e.red).resultado = Except.ok (actual :: resto) →
      e.estadoPrevio ≠ EstadoPrevio.corrupto →
      (main e).codigoSalida = 0 ∧
      (main e).estadoGuardado = some ⟨actual.fecha, actual.valor⟩) := by
  refine ⟨?_, ?_, ?_, ?_⟩
  · cases hk : e.fredApiKey
    · simp [main, conEntrega, hk]
    · rcases hr : (obtener_datos_fred e.red).resultado with err | datos
      · simp [main, conEntrega, hk, hr]
      · rcases datos with _ | ⟨actual, resto⟩
        · simp [main, conEntrega, hk, hr]
        · rcases hp : e.estadoPrevio with _ | _ | s <;>
            simp [main, conEntrega, hk, hr, hp, mainTrasAnalisis]
  · intro err hr
    cases hk : e.fredApiKey <;> simp [main, hk, hr]
  · intro hp
    cases hk : e.fredApiKey
    · simp [main, hk]
    · rcases hr : (obtener_datos_fred e.red).resultado with err | datos
      · simp [main, hk, hr]
      · rcases datos with _ | ⟨actual, resto⟩ <;> simp [main, hk, hr, hp]
  · intro actual resto hk hr hne
    rcases hp : e.estadoPrevio with _ | _ | s
    · simp [main, hk, hr, hp, mainTrasAnalisis]
    · exact absurd hp hne
    · simp [main, hk, hr, hp, mainTrasAnalisis]

/-- Witness for C9: in the fully configured demo environment the run exits 0
and persists the fetched observation. -/
theorem C9_notificacion_y_persistencia_witness :
    (main entornoDemo).codigoSalida = 0 ∧
    (main entornoDemo).estadoGuardado = some ⟨"2024-05-01", 3⟩ :=
  (C9_notificacion_y_persistencia entornoDemo).2.2.2 ⟨"2024-05-01", 3⟩ [] rfl
    (by
      have h := bucleFetch_respuesta (fun _ => Intento.respuesta [⟨"2024-05-01", some 3⟩]) 0
        [⟨"2024-05-01", some 3⟩] rfl
      norm_num [entornoDemo, obtener_datos_fred, h, procesarRespuesta, List.filterMap,
        Option.map])
    (by simp [entornoDemo])

end BondTracker
